import Mathlib

/-!
Verification development for the Smart Washroom Hygiene Score backend
(`src/main.py`). The scoring pipeline is embedded shallowly:

* Python dicts with string keys become association lists `List (String × _)`
  (`lookupD` models `dict.get(k, default)`, `lookupOpt` models `dict.get(k)`,
  `setKey` models `dict[k] = v`).
* Raw sensor payloads become `SensorPayload`, with `Option` fields modelling
  possibly-missing keys; `o.getD d` models `data.get(key, d)`.
* Real arithmetic on sensor values is modelled exactly over `ℚ`.
  Python's `round(x, 2)` becomes `round2`, rounding half away from zero for
  the nonnegative values arising here (the spec leaves the tie-breaking rule
  open between half-to-even and half-away-from-zero).
* Timestamps are `ℚ` seconds; `datetime.now()` becomes an explicit `now`
  argument, and `(now - t).total_seconds() / 3600` becomes `(now - t) / 3600`.
* Firebase reads become an explicit lookup function `String → Option _`;
  Firebase writes and MQTT notifications become values collected in the
  result (`ProcOutput.stored`, `ProcOutput.notifications`,
  `ProcOutput.config_creates`).
-/

/-- Models `dict.get(k, default)` on an association list. -/
def lookupD {α : Type} (m : List (String × α)) (k : String) (d : α) : α :=
  match m with
  | [] => d
  | (k', v) :: rest => if k' = k then v else lookupD rest k d

/-- Models `dict.get(k)` (returning `None` when absent). -/
def lookupOpt {α : Type} (m : List (String × α)) (k : String) : Option α :=
  match m with
  | [] => none
  | (k', v) :: rest => if k' = k then some v else lookupOpt rest k

/-- Models the dict assignment `m[k] = v` (replace in place, else append). -/
def setKey {α : Type} (m : List (String × α)) (k : String) (v : α) :
    List (String × α) :=
  match m with
  | [] => [(k, v)]
  | (k', v') :: rest => if k' = k then (k, v) :: rest else (k', v') :: setKey rest k v

/-- System configuration constant `HYGIENE_THRESHOLD = 50` (main.py line 29). -/
def HYGIENE_THRESHOLD : ℚ := 50

/-- System configuration constant `DECAY_RATE = 0.5` (main.py line 30). -/
def DECAY_RATE : ℚ := 0.5

/-- System configuration constant `MAX_DECAY_HOURS = 8` (main.py line 31). -/
def MAX_DECAY_HOURS : ℚ := 8

/-- The adaptive weighting table `WEIGHT_PROFILES` (main.py lines 35-64). -/
def WEIGHT_PROFILES : List (String × List (String × ℚ)) :=
  [("office",
     [("air_quality", 0.30), ("floor_moisture", 0.25), ("humidity", 0.20),
      ("temperature", 0.15), ("footfall_density", 0.10)]),
   ("public",
     [("air_quality", 0.35), ("floor_moisture", 0.30), ("humidity", 0.15),
      ("temperature", 0.10), ("footfall_density", 0.10)]),
   ("hospital",
     [("air_quality", 0.40), ("floor_moisture", 0.30), ("humidity", 0.20),
      ("temperature", 0.05), ("footfall_density", 0.05)]),
   ("restaurant",
     [("air_quality", 0.35), ("floor_moisture", 0.25), ("humidity", 0.20),
      ("temperature", 0.15), ("footfall_density", 0.05)])]

/-- An incoming sensor payload: a JSON dict whose keys may be absent.
`none` models a missing key, so `data.get(key, d)` is `field.getD d`. -/
structure SensorPayload where
  washroom_id : Option String
  air_quality : Option ℚ
  floor_moisture : Option ℚ
  humidity : Option ℚ
  temperature : Option ℚ
  footfall_count : Option ℚ
deriving DecidableEq, Repr

/-- Python `round(x, 2)`: multiply by 100, round to an integer, divide back.
Mathlib `round` rounds half up, that is half away from zero on the
nonnegative scores this pipeline produces. -/
def round2 (q : ℚ) : ℚ := ((round (q * 100) : ℤ) : ℚ) / 100

/-- The weight table chosen in `HygieneScoreEngine.__init__` (main.py line 76):
`WEIGHT_PROFILES.get(profile, WEIGHT_PROFILES['public'])`. -/
def engineWeights (profile : String) : List (String × ℚ) :=
  lookupD WEIGHT_PROFILES profile (lookupD WEIGHT_PROFILES "public" [])

/-- `HygieneScoreEngine.calculate_component_scores` (main.py lines 78-114),
returning the five component scores in the dict's insertion order. -/
def calculate_component_scores (data : SensorPayload) : List (String × ℚ) :=
  let air_quality_raw := data.air_quality.getD 50
  let airScore : ℚ := max 0 (100 - air_quality_raw)
  let moisture_raw := data.floor_moisture.getD 30
  let moistureScore : ℚ := max 0 (100 - moisture_raw)
  let humidity := data.humidity.getD 50
  let humidityScore : ℚ :=
    if 40 ≤ humidity ∧ humidity ≤ 60 then 100
    else if humidity < 40 then max 0 (humidity * 2.5)
    else max 0 (100 - (humidity - 60) * 2)
  let temperature := data.temperature.getD 23
  let temperatureScore : ℚ :=
    if 20 ≤ temperature ∧ temperature ≤ 26 then 100
    else if temperature < 20 then max 0 (temperature * 5)
    else max 0 (100 - (temperature - 26) * 5)
  let footfall := data.footfall_count.getD 0
  let footfallScore : ℚ := max 0 (100 - footfall / 100 * 100)
  [("air_quality", airScore), ("floor_moisture", moistureScore),
   ("humidity", humidityScore), ("temperature", temperatureScore),
   ("footfall_density", footfallScore)]

/-- `HygieneScoreEngine.calculate_weighted_score` (main.py lines 116-123):
`total += score * weights.get(component, 0)` over the items, then
`round(total, 2)`. -/
def calculate_weighted_score (weights : List (String × ℚ))
    (component_scores : List (String × ℚ)) : ℚ :=
  round2 (component_scores.foldl
    (fun total p => total + p.2 * lookupD weights p.1 0) 0)

/-- `HygieneScoreEngine.apply_time_decay` (main.py lines 125-139); timestamps
in seconds, `now` standing for `datetime.now()`. -/
def apply_time_decay (base_score : ℚ) (last_cleaned : Option ℚ) (now : ℚ) : ℚ :=
  match last_cleaned with
  | none => base_score
  | some t =>
    let hours_since_cleaning := (now - t) / 3600
    if hours_since_cleaning ≤ 1 then base_score
    else
      let decay_hours := min (hours_since_cleaning - 1) MAX_DECAY_HOURS
      let decay_amount := decay_hours * DECAY_RATE
      round2 (max 0 (base_score - decay_amount))

/-- One anomaly record as appended by `detect_anomalies`; the Python dict key
`'type'` is the field `kind`, and `value` is `data.get(key)` (an `Option`). -/
structure Anomaly where
  kind : String
  severity : String
  message : String
  value : Option ℚ
deriving DecidableEq, Repr

/-- `HygieneScoreEngine.detect_anomalies` (main.py lines 141-182): four checks
appending to `anomalies` in order. -/
def detect_anomalies (data : SensorPayload)
    (component_scores : List (String × ℚ)) : List Anomaly :=
  let anomalies : List Anomaly := []
  let anomalies := if 70 < data.air_quality.getD 0 then
      anomalies ++ [⟨"ODOR_SPIKE", "HIGH",
        "Severe odor/ammonia levels detected", data.air_quality⟩]
    else anomalies
  let anomalies := if 60 < data.floor_moisture.getD 0 then
      anomalies ++ [⟨"MOISTURE_ALERT", "HIGH",
        "Wet floor or potential leakage detected", data.floor_moisture⟩]
    else anomalies
  let temp := data.temperature.getD 23
  let anomalies := if temp < 10 ∨ 35 < temp then
      anomalies ++ [⟨"TEMPERATURE_ANOMALY", "MEDIUM",
        "Unusual temperature: " ++ toString temp ++ "°C", some temp⟩]
    else anomalies
  let anomalies := if 50 < data.footfall_count.getD 0 ∧
      lookupD component_scores "air_quality" 100 < 40 then
      anomalies ++ [⟨"HIGH_USAGE", "MEDIUM",
        "High usage detected, cleaning recommended", data.footfall_count⟩]
    else anomalies
  anomalies

/-- A per-washroom configuration document; optional fields model keys read
with `config.get(...)`. -/
structure WashroomConfig where
  profile : Option String
  threshold : Option ℚ
  name : String
  location : String
deriving DecidableEq, Repr

/-- The default config created on first sight (main.py lines 298-303). -/
def default_config (washroom_id : String) : WashroomConfig :=
  ⟨some "public", some HYGIENE_THRESHOLD, "Washroom " ++ washroom_id, "Unknown"⟩

/-- Result of a `get_washroom_config` call: the config, the updated cache and
the list of configs persisted to Firestore by the call. -/
structure ConfigFetch where
  config : WashroomConfig
  configs : List (String × WashroomConfig)
  created : List (String × WashroomConfig)
deriving Repr

/-- `BackendProcessor.get_washroom_config` (main.py lines 290-307); `fs` is
the external Firestore `washroom_configs` collection. -/
def get_washroom_config (fs : String → Option WashroomConfig)
    (configs : List (String × WashroomConfig)) (washroom_id : String) :
    ConfigFetch :=
  match lookupOpt configs washroom_id with
  | some c => ⟨c, configs, []⟩
  | none =>
    match fs washroom_id with
    | some c => ⟨c, setKey configs washroom_id c, []⟩
    | none =>
      let d := default_config washroom_id
      ⟨d, setKey configs washroom_id d, [(washroom_id, d)]⟩

/-- The result dict assembled by `process_sensor_data` (main.py lines 256-266). -/
structure ScoreResult where
  washroom_id : String
  timestamp : ℚ
  sensor_data : SensorPayload
  component_scores : List (String × ℚ)
  base_score : ℚ
  final_score : ℚ
  decay_applied : ℚ
  anomalies : List Anomaly
  profile : String
deriving DecidableEq, Repr

/-- The notification dict built by `send_cleaner_notification`
(main.py lines 338-345); the Python key `'type'` is the field `kind`. -/
structure Notification where
  washroom_id : String
  timestamp : ℚ
  kind : String
  score : ℚ
  message : String
  anomalies : List Anomaly
deriving DecidableEq, Repr

/-- `BackendProcessor.send_cleaner_notification` (main.py lines 336-350). -/
def send_cleaner_notification (washroom_id : String) (score : ℚ)
    (anomalies : List Anomaly) (now : ℚ) : Notification :=
  ⟨washroom_id, now, "HYGIENE_ALERT", score,
   "Hygiene score dropped to " ++ toString score ++
     "%. Immediate cleaning required.", anomalies⟩

/-- `BackendProcessor.check_alerts` (main.py lines 325-334) with the threshold
already resolved from the config (`config.get('threshold', HYGIENE_THRESHOLD)`). -/
def check_alerts (result : ScoreResult) (threshold : ℚ) (now : ℚ) :
    Option Notification :=
  if result.final_score < threshold then
    some (send_cleaner_notification result.washroom_id result.final_score
      result.anomalies now)
  else none

/-- The mutable module-level state of main.py: `washroom_configs`,
`last_cleaning_times` and `last_scores` (lines 67-69). -/
structure ProcState where
  washroom_configs : List (String × WashroomConfig)
  last_cleaning_times : List (String × ℚ)
  last_scores : List (String × ℚ)
deriving DecidableEq, Repr

/-- Everything `process_sensor_data` does: the state afterwards, the score
results stored in Firebase, the notifications pushed, and the default
configs persisted by config resolution. -/
structure ProcOutput where
  state : ProcState
  stored : List ScoreResult
  notifications : List Notification
  config_creates : List (String × WashroomConfig)
deriving DecidableEq, Repr

/-- `BackendProcessor.process_sensor_data` (main.py lines 227-288). A falsy
`washroom_id` (missing key or empty string) aborts with the state untouched;
otherwise the pipeline runs: config resolution, component scores, weighted
score, decay, anomalies, Firebase store, alert check (which re-resolves the
config, by then cached), and the `last_scores` cache update. -/
def process_sensor_data (fs : String → Option WashroomConfig) (now : ℚ)
    (st : ProcState) (data : SensorPayload) : ProcOutput :=
  match data.washroom_id with
  | none => ⟨st, [], [], []⟩
  | some washroom_id =>
    if washroom_id = "" then ⟨st, [], [], []⟩
    else
      let fetch := get_washroom_config fs st.washroom_configs washroom_id
      let profile := fetch.config.profile.getD "public"
      let weights := engineWeights profile
      let component_scores := calculate_component_scores data
      let base_score := calculate_weighted_score weights component_scores
      let last_cleaned := lookupOpt st.last_cleaning_times washroom_id
      let final_score := apply_time_decay base_score last_cleaned now
      let anomalies := detect_anomalies data component_scores
      let result : ScoreResult :=
        ⟨washroom_id, now, data, component_scores, base_score, final_score,
         base_score - final_score, anomalies, profile⟩
      let fetch2 := get_washroom_config fs fetch.configs washroom_id
      let threshold := fetch2.config.threshold.getD HYGIENE_THRESHOLD
      let alert := check_alerts result threshold now
      ⟨⟨fetch2.configs, st.last_cleaning_times,
        setKey st.last_scores washroom_id final_score⟩,
       [result], alert.toList, fetch.created ++ fetch2.created⟩

/-- Decay formula exactly as the spec words it, for comparison with the
source's `apply_time_decay`: no last-cleaned timestamp means no decay;
elapsed fractional hours at most one means no decay; otherwise
`max(0, base_score − min(elapsed − 1, 8) × 0.5)` rounded to 2 decimals. -/
def applyDecaySpec (base_score : ℚ) (last_cleaned : Option ℚ) (now : ℚ) : ℚ :=
  match last_cleaned with
  | none => base_score
  | some t =>
    if (now - t) / 3600 ≤ 1 then base_score
    else round2 (max 0 (base_score - min ((now - t) / 3600 - 1) 8 * (1 / 2)))

/-- The decay amount charged for a given number of elapsed hours since the
last cleaning, read off the `apply_time_decay` code: zero within the one-hour
grace period, otherwise `min(elapsed − 1, MAX_DECAY_HOURS) × DECAY_RATE`. -/
def decayAmount (elapsed : ℚ) : ℚ :=
  if elapsed ≤ 1 then 0 else min (elapsed - 1) MAX_DECAY_HOURS * DECAY_RATE

/-- Rule 1 of the spec's anomaly contract: raw air quality above 70 raises
one ODOR_SPIKE/HIGH anomaly. -/
def ruleOdorSpike (reading : SensorPayload) : List Anomaly :=
  if 70 < reading.air_quality.getD 0 then
    [⟨"ODOR_SPIKE", "HIGH", "Severe odor/ammonia levels detected",
      reading.air_quality⟩]
  else []

/-- Rule 2 of the spec's anomaly contract: raw floor moisture above 60 raises
one MOISTURE_ALERT/HIGH anomaly. -/
def ruleMoistureAlert (reading : SensorPayload) : List Anomaly :=
  if 60 < reading.floor_moisture.getD 0 then
    [⟨"MOISTURE_ALERT", "HIGH", "Wet floor or potential leakage detected",
      reading.floor_moisture⟩]
  else []

/-- Rule 3 of the spec's anomaly contract: raw temperature below 10 or above
35 raises one TEMPERATURE_ANOMALY/MEDIUM anomaly whose message carries the
raw value. -/
def ruleTemperatureAnomaly (reading : SensorPayload) : List Anomaly :=
  if reading.temperature.getD 23 < 10 ∨ 35 < reading.temperature.getD 23 then
    [⟨"TEMPERATURE_ANOMALY", "MEDIUM",
      "Unusual temperature: " ++ toString (reading.temperature.getD 23) ++ "°C",
      some (reading.temperature.getD 23)⟩]
  else []

/-- Rule 4 of the spec's anomaly contract: footfall above 50 together with an
air-quality component score below 40 raises one HIGH_USAGE/MEDIUM anomaly. -/
def ruleHighUsage (reading : SensorPayload)
    (component_scores : List (String × ℚ)) : List Anomaly :=
  if 50 < reading.footfall_count.getD 0 ∧
      lookupD component_scores "air_quality" 100 < 40 then
    [⟨"HIGH_USAGE", "MEDIUM", "High usage detected, cleaning recommended",
      reading.footfall_count⟩]
  else []

/-- Anomaly detection as the spec words it: the four independent rules
evaluated in their fixed order, each contributing its at-most-one anomaly. -/
def detectSpec (reading : SensorPayload)
    (component_scores : List (String × ℚ)) : List Anomaly :=
  ruleOdorSpike reading ++ ruleMoistureAlert reading ++
    ruleTemperatureAnomaly reading ++ ruleHighUsage reading component_scores

/-! Helper lemmas about `round2`, association lists and the component scores. -/

lemma round2_mono {a b : ℚ} (h : a ≤ b) : round2 a ≤ round2 b := by
  unfold round2
  have h1 : round (a * 100) ≤ round (b * 100) := by
    rw [round_eq, round_eq]
    exact Int.floor_le_floor (by linarith)
  have h2 : ((round (a * 100) : ℤ) : ℚ) ≤ ((round (b * 100) : ℤ) : ℚ) := by
    exact_mod_cast h1
  linarith

lemma round2_zero : round2 0 = 0 := by
  simp [round2]

lemma round2_nonneg {a : ℚ} (h : 0 ≤ a) : 0 ≤ round2 a := by
  have := round2_mono h
  rwa [round2_zero] at this

lemma round2_round2 (a : ℚ) : round2 (round2 a) = round2 a := by
  unfold round2
  rw [div_mul_cancel₀ _ (by norm_num : (100 : ℚ) ≠ 0), round_intCast]

lemma foldl_add_map {α : Type} (f : α → ℚ) (l : List α) : ∀ acc : ℚ,
    List.foldl (fun t p => t + f p) acc l = acc + (l.map f).sum := by
  induction l with
  | nil => intro acc; simp
  | cons x xs ih => intro acc; simp [ih, add_assoc]

lemma lookupD_nonneg {m : List (String × ℚ)} {k : String} {d : ℚ}
    (hm : ∀ p ∈ m, 0 ≤ p.2) (hd : 0 ≤ d) : 0 ≤ lookupD m k d := by
  induction m with
  | nil => simpa [lookupD] using hd
  | cons x xs ih =>
    simp only [lookupD]
    split
    · exact hm x (by simp)
    · exact ih fun p hp => hm p (by simp [hp])

lemma lookupD_mem_or {α : Type} (m : List (String × α)) (k : String) (d : α) :
    lookupD m k d = d ∨ lookupD m k d ∈ m.map Prod.snd := by
  induction m with
  | nil => left; rfl
  | cons x xs ih =>
    simp only [lookupD]
    split
    · right; simp
    · rcases ih with h | h
      · left; exact h
      · right; simp [h]

lemma engineWeights_nonneg (profile : String) :
    ∀ p ∈ engineWeights profile, 0 ≤ p.2 := by
  have key : ∀ w ∈ WEIGHT_PROFILES.map Prod.snd, ∀ p ∈ w, 0 ≤ p.2 := by
    intro w hw
    simp only [WEIGHT_PROFILES, List.map_cons, List.map_nil, List.mem_cons,
      List.not_mem_nil, or_false] at hw
    rcases hw with h | h | h | h <;> subst h <;> intro p hp <;> simp at hp <;>
      rcases hp with h | h | h | h | h <;> rw [h] <;> norm_num
  have he : engineWeights profile =
      lookupD WEIGHT_PROFILES profile (lookupD WEIGHT_PROFILES "public" []) := rfl
  have hpub : lookupD WEIGHT_PROFILES "public" [] ∈ WEIGHT_PROFILES.map Prod.snd := by
    simp [WEIGHT_PROFILES, lookupD]
  rw [he]
  rcases lookupD_mem_or WEIGHT_PROFILES profile (lookupD WEIGHT_PROFILES "public" [])
    with h | h
  · rw [h]; exact key _ hpub
  · exact key _ h

lemma calculate_component_scores_nonneg (data : SensorPayload) :
    ∀ p ∈ calculate_component_scores data, 0 ≤ p.2 := by
  intro p hp
  simp only [calculate_component_scores, List.mem_cons, List.not_mem_nil,
    or_false] at hp
  rcases hp with h | h | h | h | h <;> rw [h] <;> simp only
  · exact le_max_left 0 _
  · exact le_max_left 0 _
  · split_ifs <;> simp [le_max_left]
  · split_ifs <;> simp [le_max_left]
  · exact le_max_left 0 _

lemma cs_air (data : SensorPayload) :
    lookupD (calculate_component_scores data) "air_quality" 0 =
      max 0 (100 - data.air_quality.getD 50) := by
  simp [calculate_component_scores, lookupD]

lemma cs_moisture (data : SensorPayload) :
    lookupD (calculate_component_scores data) "floor_moisture" 0 =
      max 0 (100 - data.floor_moisture.getD 30) := by
  simp [calculate_component_scores, lookupD]

lemma cs_humidity (data : SensorPayload) :
    lookupD (calculate_component_scores data) "humidity" 0 =
      (if 40 ≤ data.humidity.getD 50 ∧ data.humidity.getD 50 ≤ 60 then 100
       else if data.humidity.getD 50 < 40 then max 0 (data.humidity.getD 50 * 2.5)
       else max 0 (100 - (data.humidity.getD 50 - 60) * 2)) := by
  simp [calculate_component_scores, lookupD]

lemma cs_temperature (data : SensorPayload) :
    lookupD (calculate_component_scores data) "temperature" 0 =
      (if 20 ≤ data.temperature.getD 23 ∧ data.temperature.getD 23 ≤ 26 then 100
       else if data.temperature.getD 23 < 20 then max 0 (data.temperature.getD 23 * 5)
       else max 0 (100 - (data.temperature.getD 23 - 26) * 5)) := by
  simp [calculate_component_scores, lookupD]

lemma cs_footfall (data : SensorPayload) :
    lookupD (calculate_component_scores data) "footfall_density" 0 =
      max 0 (100 - data.footfall_count.getD 0 / 100 * 100) := by
  simp [calculate_component_scores, lookupD]

lemma calculate_weighted_score_nonneg (profile : String) (data : SensorPayload) :
    0 ≤ calculate_weighted_score (engineWeights profile)
      (calculate_component_scores data) := by
  unfold calculate_weighted_score
  apply round2_nonneg
  rw [foldl_add_map, zero_add]
  apply List.sum_nonneg
  intro x hx
  simp only [List.mem_map] at hx
  obtain ⟨p, hp, rfl⟩ := hx
  exact mul_nonneg (calculate_component_scores_nonneg data p hp)
    (lookupD_nonneg (engineWeights_nonneg profile) le_rfl)

/-! Claim theorems. -/

/-- C1, counterexample: on the reading with raw `air_quality = -10` the code's
air-quality component score is `max(0, 100 − (−10)) = 110`, so a negative raw
value does not clamp the score to 100 and the score leaves `[0, 100]`. -/
theorem c1_counterexample :
    lookupD (calculate_component_scores ⟨none, some (-10), none, none, none, none⟩)
        "air_quality" 0 = 110 ∧
    ¬ lookupD (calculate_component_scores ⟨none, some (-10), none, none, none, none⟩)
        "air_quality" 0 ≤ 100 := by
  rw [cs_air]
  norm_num

/-- C1, amended: every component score is at least 0, and the humidity and
temperature scores always lie in `[0, 100]`; the air-quality, floor-moisture
and footfall-density scores lie in `[0, 100]` whenever their raw value is
nonnegative; for air quality and floor moisture a raw value above 100 yields
score 0, while a negative raw value yields score `100 − raw`, which exceeds
100 instead of clamping to it. -/
theorem c1_component_scores_amended (data : SensorPayload) :
    (∀ p ∈ calculate_component_scores data, 0 ≤ p.2) ∧
    lookupD (calculate_component_scores data) "humidity" 0 ≤ 100 ∧
    lookupD (calculate_component_scores data) "temperature" 0 ≤ 100 ∧
    (0 ≤ data.air_quality.getD 50 →
      lookupD (calculate_component_scores data) "air_quality" 0 ≤ 100) ∧
    (0 ≤ data.floor_moisture.getD 30 →
      lookupD (calculate_component_scores data) "floor_moisture" 0 ≤ 100) ∧
    (0 ≤ data.footfall_count.getD 0 →
      lookupD (calculate_component_scores data) "footfall_density" 0 ≤ 100) ∧
    (100 < data.air_quality.getD 50 →
      lookupD (calculate_component_scores data) "air_quality" 0 = 0) ∧
    (100 < data.floor_moisture.getD 30 →
      lookupD (calculate_component_scores data) "floor_moisture" 0 = 0) ∧
    (data.air_quality.getD 50 < 0 →
      lookupD (calculate_component_scores data) "air_quality" 0 =
        100 - data.air_quality.getD 50) ∧
    (data.floor_moisture.getD 30 < 0 →
      lookupD (calculate_component_scores data) "floor_moisture" 0 =
        100 - data.floor_moisture.getD 30) := by
  refine ⟨calculate_component_scores_nonneg data, ?_, ?_, ?_, ?_, ?_, ?_, ?_, ?_, ?_⟩
  · rw [cs_humidity]
    split_ifs with h1 h2
    · norm_num
    · exact max_le (by norm_num) (by linarith)
    · push_neg at h1
      have h60 : 60 < data.humidity.getD 50 := by
        push_neg at h2
        exact h1 h2
      exact max_le (by norm_num) (by linarith)
  · rw [cs_temperature]
    split_ifs with h1 h2
    · norm_num
    · exact max_le (by norm_num) (by linarith)
    · push_neg at h1
      have h26 : 26 < data.temperature.getD 23 := by
        push_neg at h2
        exact h1 h2
      exact max_le (by norm_num) (by linarith)
  · intro h
    rw [cs_air]
    exact max_le (by norm_num) (by linarith)
  · intro h
    rw [cs_moisture]
    exact max_le (by norm_num) (by linarith)
  · intro h
    rw [cs_footfall]
    have hdiv : data.footfall_count.getD 0 / 100 * 100 = data.footfall_count.getD 0 := by
      field_simp
    rw [hdiv]
    exact max_le (by norm_num) (by linarith)
  · intro h
    rw [cs_air]
    exact max_eq_left (by linarith)
  · intro h
    rw [cs_moisture]
    exact max_eq_left (by linarith)
  · intro h
    rw [cs_air]
    exact max_eq_right (by linarith)
  · intro h
    rw [cs_moisture]
    exact max_eq_right (by linarith)

/-- C1, witness: the amended theorem applied to the reading with raw
air quality 120 (score clamps to 0), raw floor moisture −7 (score 107,
above 100) and raw footfall 10 (score within range). -/
theorem c1_amended_witness :
    lookupD (calculate_component_scores ⟨none, some 120, some (-7), none, none, some 10⟩)
        "air_quality" 0 = 0 ∧
    lookupD (calculate_component_scores ⟨none, some 120, some (-7), none, none, some 10⟩)
        "floor_moisture" 0 = 100 - (-7) ∧
    lookupD (calculate_component_scores ⟨none, some 120, some (-7), none, none, some 10⟩)
        "footfall_density" 0 ≤ 100 :=
  ⟨(c1_component_scores_amended ⟨none, some 120, some (-7), none, none, some 10⟩).2.2.2.2.2.2.1
      (by norm_num),
   (c1_component_scores_amended ⟨none, some 120, some (-7), none, none, some 10⟩).2.2.2.2.2.2.2.2.2
      (by norm_num),
   (c1_component_scores_amended ⟨none, some 120, some (-7), none, none, some 10⟩).2.2.2.2.2.1
      (by norm_num)⟩

/-- C2: on the Scenario 1 reading under an unseen device (so the default
`public` profile is created), the pipeline yields component scores
70/80/100/100/90, base score 82.5, final score 82.5, no anomalies and no
notification at the default threshold 50. -/
theorem c2_scenario_public :
    process_sensor_data (fun _ => none) 0 ⟨[], [], []⟩
        ⟨some "W1", some 30, some 20, some 50, some 23, some 10⟩ =
      ⟨⟨[("W1", default_config "W1")], [], [("W1", 82.5)]⟩,
       [⟨"W1", 0, ⟨some "W1", some 30, some 20, some 50, some 23, some 10⟩,
         [("air_quality", 70), ("floor_moisture", 80), ("humidity", 100),
          ("temperature", 100), ("footfall_density", 90)],
         82.5, 82.5, 0, [], "public"⟩],
       [], [("W1", default_config "W1")]⟩ := by
  simp [process_sensor_data, get_washroom_config, lookupOpt, setKey, engineWeights,
    WEIGHT_PROFILES, calculate_component_scores, calculate_weighted_score, lookupD,
    apply_time_decay, detect_anomalies, check_alerts, default_config,
    HYGIENE_THRESHOLD, Option.toList]
  norm_num [round2, round_eq]

/-- C3: `apply_time_decay` agrees with the spec's decay formula everywhere
(no timestamp or at most one elapsed hour means no decay, otherwise
`round2(max(0, base − min(elapsed − 1, 8) × 0.5))`), and five elapsed hours
on base score 80 yield 78. -/
theorem c3_apply_decay (base_score : ℚ) (last_cleaned : Option ℚ) (now : ℚ) :
    apply_time_decay base_score last_cleaned now =
      applyDecaySpec base_score last_cleaned now ∧
    apply_time_decay 80 (some 0) 18000 = 78 := by
  constructor
  · cases last_cleaned with
    | none => rfl
    | some t =>
      simp only [apply_time_decay, applyDecaySpec, MAX_DECAY_HOURS, DECAY_RATE]
      norm_num
  · norm_num [apply_time_decay, round2, round_eq, MAX_DECAY_HOURS, DECAY_RATE]

/-- C4: for every profile, reading, cleaning state and time, the final score
lies in `[0, base_score]` and the decay applied `base − final` is
nonnegative: decay never increases a score. -/
theorem c4_final_score_bounds (profile : String) (data : SensorPayload)
    (last_cleaned : Option ℚ) (now : ℚ) :
    0 ≤ apply_time_decay (calculate_weighted_score (engineWeights profile)
        (calculate_component_scores data)) last_cleaned now ∧
    apply_time_decay (calculate_weighted_score (engineWeights profile)
        (calculate_component_scores data)) last_cleaned now ≤
      calculate_weighted_score (engineWeights profile)
        (calculate_component_scores data) ∧
    0 ≤ calculate_weighted_score (engineWeights profile)
        (calculate_component_scores data) -
      apply_time_decay (calculate_weighted_score (engineWeights profile)
        (calculate_component_scores data)) last_cleaned now := by
  set base := calculate_weighted_score (engineWeights profile)
    (calculate_component_scores data) with hbase
  have hb : 0 ≤ base := calculate_weighted_score_nonneg profile data
  have hfix : round2 base = base := by
    rw [hbase]
    unfold calculate_weighted_score
    exact round2_round2 _
  have key : 0 ≤ apply_time_decay base last_cleaned now ∧
      apply_time_decay base last_cleaned now ≤ base := by
    cases last_cleaned with
    | none => exact ⟨hb, le_rfl⟩
    | some t =>
      by_cases h1 : (now - t) / 3600 ≤ 1
      · have heq : apply_time_decay base (some t) now = base := by
          simp [apply_time_decay, h1]
        rw [heq]
        exact ⟨hb, le_rfl⟩
      · have hd : 0 ≤ min ((now - t) / 3600 - 1) MAX_DECAY_HOURS * DECAY_RATE := by
          apply mul_nonneg
          · push_neg at h1
            exact le_min (by linarith) (by norm_num [MAX_DECAY_HOURS])
          · norm_num [DECAY_RATE]
        have heq : apply_time_decay base (some t) now =
            round2 (max 0 (base - min ((now - t) / 3600 - 1) MAX_DECAY_HOURS *
              DECAY_RATE)) := by
          simp [apply_time_decay, h1]
        rw [heq]
        refine ⟨round2_nonneg (le_max_left 0 _), ?_⟩
        have h2 : round2 (max 0 (base - min ((now - t) / 3600 - 1) MAX_DECAY_HOURS *
            DECAY_RATE)) ≤ round2 base := round2_mono (max_le hb (by linarith))
        rw [hfix] at h2
        exact h2
  exact ⟨key.1, key.2, by linarith [key.1, key.2]⟩

/-- C5: the alert check emits a notification exactly when the final score is
strictly below the threshold; at equality nothing fires; a fired notification
carries the device id, the score, the score-templated message and the
anomalies copied from the score result. -/
theorem c5_alert_iff (r : ScoreResult) (threshold now : ℚ) :
    ((check_alerts r threshold now).isSome ↔ r.final_score < threshold) ∧
    check_alerts r r.final_score now = none ∧
    (r.final_score < threshold → check_alerts r threshold now =
      some ⟨r.washroom_id, now, "HYGIENE_ALERT", r.final_score,
        "Hygiene score dropped to " ++ toString r.final_score ++
          "%. Immediate cleaning required.", r.anomalies⟩) := by
  refine ⟨?_, ?_, fun h => ?_⟩
  · unfold check_alerts
    split <;> simp_all
  · simp [check_alerts]
  · simp [check_alerts, send_cleaner_notification, h]

/-- C5, witness: a result with final score 40 against threshold 50 fires and
the notification carries all the fields. -/
theorem c5_witness :
    (40 : ℚ) < 50 ∧
    check_alerts ⟨"W1", 0, ⟨none, none, none, none, none, none⟩, [], 40, 40, 0,
        [], "public"⟩ 50 3 =
      some ⟨"W1", 3, "HYGIENE_ALERT", 40,
        "Hygiene score dropped to " ++ toString (40 : ℚ) ++
          "%. Immediate cleaning required.", []⟩ :=
  ⟨by norm_num,
   (c5_alert_iff ⟨"W1", 0, ⟨none, none, none, none, none, none⟩, [], 40, 40, 0,
      [], "public"⟩ 50 3).2.2 (by norm_num)⟩

/-- C6: `detect_anomalies` is exactly the concatenation of the four
independent rules in their fixed order, each rule contributing at most one
anomaly, and it is a pure function: equal inputs give the identical
sequence. -/
theorem c6_detect_anomalies (data d2 : SensorPayload)
    (component_scores cs2 : List (String × ℚ)) :
    detect_anomalies data component_scores = detectSpec data component_scores ∧
    (data = d2 → component_scores = cs2 →
      detect_anomalies data component_scores = detect_anomalies d2 cs2) ∧
    (ruleOdorSpike data).length ≤ 1 ∧
    (ruleMoistureAlert data).length ≤ 1 ∧
    (ruleTemperatureAnomaly data).length ≤ 1 ∧
    (ruleHighUsage data component_scores).length ≤ 1 := by
  refine ⟨?_, fun h1 h2 => by rw [h1, h2], ?_, ?_, ?_, ?_⟩
  · simp only [detect_anomalies, detectSpec, ruleOdorSpike, ruleMoistureAlert,
      ruleTemperatureAnomaly, ruleHighUsage]
    split_ifs <;> simp
  · unfold ruleOdorSpike
    split <;> simp
  · unfold ruleMoistureAlert
    split <;> simp
  · unfold ruleTemperatureAnomaly
    split <;> simp
  · unfold ruleHighUsage
    split <;> simp

/-- C6, witness: the Scenario 2 reading with raw air quality 85 produces the
spec's rule concatenation, deterministically. -/
theorem c6_witness :
    detect_anomalies ⟨none, some 85, none, none, none, none⟩ [] =
      detectSpec ⟨none, some 85, none, none, none, none⟩ [] ∧
    detect_anomalies ⟨none, some 85, none, none, none, none⟩ [] =
      detect_anomalies ⟨none, some 85, none, none, none, none⟩ [] :=
  ⟨(c6_detect_anomalies ⟨none, some 85, none, none, none, none⟩
      ⟨none, some 85, none, none, none, none⟩ [] []).1,
   (c6_detect_anomalies ⟨none, some 85, none, none, none, none⟩
      ⟨none, some 85, none, none, none, none⟩ [] []).2.1 rfl rfl⟩

/-- C7: the weighted score is the 2-decimal rounding of the sum of
score × weight with missing weights contributing zero, so changing the value
of a component whose weight is zero or missing leaves the result unchanged. -/
theorem c7_weighted_score (weights scores pre post : List (String × ℚ))
    (c : String) (v v' : ℚ) :
    calculate_weighted_score weights scores =
      round2 ((scores.map fun p => p.2 * lookupD weights p.1 0).sum) ∧
    (lookupD weights c 0 = 0 →
      calculate_weighted_score weights (pre ++ (c, v) :: post) =
        calculate_weighted_score weights (pre ++ (c, v') :: post)) := by
  have hform : ∀ s : List (String × ℚ), calculate_weighted_score weights s =
      round2 ((s.map fun p => p.2 * lookupD weights p.1 0).sum) := by
    intro s
    unfold calculate_weighted_score
    rw [foldl_add_map, zero_add]
  refine ⟨hform scores, fun h => ?_⟩
  rw [hform, hform]
  congr 1
  simp [h]

/-- C7, witness: the public weight table has no weight for component "extra",
so its score does not affect the weighted score. -/
theorem c7_witness :
    lookupD (engineWeights "public") "extra" 0 = 0 ∧
    calculate_weighted_score (engineWeights "public") ([] ++ ("extra", 5) :: []) =
      calculate_weighted_score (engineWeights "public") ([] ++ ("extra", 7) :: []) :=
  ⟨by simp [engineWeights, WEIGHT_PROFILES, lookupD],
   (c7_weighted_score (engineWeights "public") [] [] [] "extra" 5 7).2
     (by simp [engineWeights, WEIGHT_PROFILES, lookupD])⟩

/-- C8: the decay amount is zero within the one-hour grace period,
non-decreasing in the elapsed hours, constant 4.0 from nine elapsed hours on
(the eight chargeable hours cap), and it is the amount `apply_time_decay`
charges beyond the grace period. -/
theorem c8_decay_monotone (e e' base t now : ℚ) :
    (e ≤ 1 → decayAmount e = 0) ∧
    (e ≤ e' → decayAmount e ≤ decayAmount e') ∧
    (9 ≤ e → decayAmount e = 4) ∧
    (1 < (now - t) / 3600 →
      apply_time_decay base (some t) now =
        round2 (max 0 (base - decayAmount ((now - t) / 3600)))) := by
  refine ⟨fun h => by simp [decayAmount, h], fun h => ?_, fun h => ?_, fun h => ?_⟩
  · unfold decayAmount
    by_cases h1 : e ≤ 1
    · rw [if_pos h1]
      by_cases h2 : e' ≤ 1
      · rw [if_pos h2]
      · rw [if_neg h2]
        push_neg at h2
        apply mul_nonneg
        · exact le_min (by linarith) (by norm_num [MAX_DECAY_HOURS])
        · norm_num [DECAY_RATE]
    · have h2 : ¬ e' ≤ 1 := fun hc => h1 (le_trans h hc)
      rw [if_neg h1, if_neg h2]
      apply mul_le_mul_of_nonneg_right
      · exact min_le_min (by linarith) le_rfl
      · norm_num [DECAY_RATE]
  · unfold decayAmount
    rw [if_neg (by linarith : ¬ e ≤ 1)]
    rw [min_eq_right (by simp only [MAX_DECAY_HOURS]; linarith)]
    norm_num [MAX_DECAY_HOURS, DECAY_RATE]
  · have h' : ¬ (now - t) / 3600 ≤ 1 := not_le.mpr h
    simp [apply_time_decay, decayAmount, h']

/-- C8, witness: half an hour charges nothing, the charge grows from half an
hour to five hours, ten hours charge the capped 4.0, and five elapsed hours
instantiate the decay formula inside `apply_time_decay`. -/
theorem c8_witness :
    ((0.5 : ℚ) ≤ 1 ∧ decayAmount 0.5 = 0) ∧
    ((0.5 : ℚ) ≤ 5 ∧ decayAmount 0.5 ≤ decayAmount 5) ∧
    ((9 : ℚ) ≤ 10 ∧ decayAmount 10 = 4) ∧
    ((1 : ℚ) < (18000 - 0) / 3600 ∧
      apply_time_decay 80 (some 0) 18000 =
        round2 (max 0 (80 - decayAmount ((18000 - 0) / 3600)))) :=
  ⟨⟨by norm_num, (c8_decay_monotone 0.5 5 80 0 18000).1 (by norm_num)⟩,
   ⟨by norm_num, (c8_decay_monotone 0.5 5 80 0 18000).2.1 (by norm_num)⟩,
   ⟨by norm_num, (c8_decay_monotone 10 5 80 0 18000).2.2.1 (by norm_num)⟩,
   ⟨by norm_num, (c8_decay_monotone 0.5 5 80 0 18000).2.2.2 (by norm_num)⟩⟩

/-- C9: a payload with no `washroom_id` aborts the pipeline before anything
happens: the state (config cache, cleaning times, last scores) is returned
unchanged and nothing is stored, notified or created. -/
theorem c9_missing_id (fs : String → Option WashroomConfig) (now : ℚ)
    (st : ProcState) (data : SensorPayload) (h : data.washroom_id = none) :
    process_sensor_data fs now st data = ⟨st, [], [], []⟩ := by
  unfold process_sensor_data
  rw [h]

/-- C9, witness: an id-less reading against a populated state leaves every
cache exactly as it was and produces no effects. -/
theorem c9_witness :
    process_sensor_data (fun _ => none) 0
        ⟨[("W1", default_config "W1")], [("W1", 3)], [("W1", 50)]⟩
        ⟨none, some 30, some 20, some 50, some 23, some 10⟩ =
      ⟨⟨[("W1", default_config "W1")], [("W1", 3)], [("W1", 50)]⟩, [], [], []⟩ :=
  c9_missing_id (fun _ => none) 0 _ _ rfl

/-- C10: a cached config naming a profile outside the four known ones makes
the engine fall back to the public weight table (the base score is the
public-weighted one) while the stored result still records the unknown
profile name unchanged. -/
theorem c10_unknown_profile (fs : String → Option WashroomConfig) (now : ℚ)
    (st : ProcState) (data : SensorPayload) (wid p : String)
    (cfg : WashroomConfig)
    (h1 : data.washroom_id = some wid) (h2 : wid ≠ "")
    (h3 : lookupOpt st.washroom_configs wid = some cfg)
    (h4 : cfg.profile = some p)
    (h5 : p ∉ (["office", "public", "hospital", "restaurant"] : List String)) :
    engineWeights p = engineWeights "public" ∧
    (process_sensor_data fs now st data).stored.map ScoreResult.profile = [p] ∧
    (process_sensor_data fs now st data).stored.map ScoreResult.base_score =
      [calculate_weighted_score (engineWeights "public")
        (calculate_component_scores data)] := by
  simp only [List.mem_cons, List.not_mem_nil, or_false, not_or] at h5
  obtain ⟨n1, n2, n3, n4⟩ := h5
  have hW : engineWeights p = engineWeights "public" := by
    unfold engineWeights
    simp [WEIGHT_PROFILES, lookupD, Ne.symm n1, Ne.symm n2, Ne.symm n3, Ne.symm n4]
  refine ⟨hW, ?_, ?_⟩ <;>
    simp [process_sensor_data, get_washroom_config, h1, h2, h3, h4, hW]

/-- C10, witness: a cached profile "mall" scores with the public weights but
is recorded as "mall" in the stored result. -/
theorem c10_witness :
    engineWeights "mall" = engineWeights "public" ∧
    (process_sensor_data (fun _ => none) 0
        ⟨[("W1", ⟨some "mall", none, "n", "l"⟩)], [], []⟩
        ⟨some "W1", some 30, some 20, some 50, some 23, some 10⟩).stored.map
      ScoreResult.profile = ["mall"] ∧
    (process_sensor_data (fun _ => none) 0
        ⟨[("W1", ⟨some "mall", none, "n", "l"⟩)], [], []⟩
        ⟨some "W1", some 30, some 20, some 50, some 23, some 10⟩).stored.map
      ScoreResult.base_score =
      [calculate_weighted_score (engineWeights "public")
        (calculate_component_scores
          ⟨some "W1", some 30, some 20, some 50, some 23, some 10⟩)] :=
  c10_unknown_profile (fun _ => none) 0
    ⟨[("W1", ⟨some "mall", none, "n", "l"⟩)], [], []⟩
    ⟨some "W1", some 30, some 20, some 50, some 23, some 10⟩ "W1" "mall"
    ⟨some "mall", none, "n", "l"⟩ rfl (by simp) (by simp [lookupOpt]) rfl (by simp)
